import Mathlib

/-!
Shallow embedding of the ModelViewer interactive viewport controller
(`ViewerGraphicsWindow.cpp`): camera/transform state, per-frame input
integration, auto-framing (`resetView`), the shader hot-reload state
machine, and the frame-timing estimator.

Conventions of the embedding:
* `float` values are idealised as real numbers `ℝ` (frame-timer values,
  which only ever meet rational constants, are idealised as `ℚ` so the
  relevant statements stay decidable).
* Qt's mutating `QMatrix4x4` operations (`translate`, `scale`, `rotate`)
  post-multiply the current matrix; they are modelled as
  right-multiplication on 4×4 real matrices.
* The OpenGL shader program is modelled through an environment
  (`ShaderEnv`) saying which source files compile and which attached
  combinations link, since compilation itself is outside the repository.
* File dialogs are modelled by an extra `dialog` argument holding the
  path the dialog would return (`""` = user cancelled).
-/

namespace ModelViewer

noncomputable section

abbrev Mat4 := Matrix (Fin 4) (Fin 4) ℝ

/-- `QMatrix4x4` translation matrix, as produced by `translate(x, y, z)`
on the identity. -/
def translationM (x y z : ℝ) : Mat4 :=
  !![1, 0, 0, x;
     0, 1, 0, y;
     0, 0, 1, z;
     0, 0, 0, 1]

/-- `QMatrix4x4` uniform scale matrix (`scale(float f)` scales x, y and z). -/
def scaleM (f : ℝ) : Mat4 :=
  !![f, 0, 0, 0;
     0, f, 0, 0;
     0, 0, f, 0;
     0, 0, 0, 1]

/-- `QMatrix4x4::translate` post-multiplies by a translation matrix. -/
def qtTranslate (m : Mat4) (x y z : ℝ) : Mat4 := m * translationM x y z

/-- `QMatrix4x4::scale(float)` post-multiplies by a uniform scale matrix. -/
def qtScale (m : Mat4) (f : ℝ) : Mat4 := m * scaleM f

/-- Qt's `qDegreesToRadians`. -/
def qDegreesToRadians (d : ℝ) : ℝ := d * (Real.pi / 180)

/-- Qt's `qRadiansToDegrees`. -/
def qRadiansToDegrees (r : ℝ) : ℝ := r * (180 / Real.pi)

/-- The axis-angle rotation matrix built by `QMatrix4x4::rotate(angle, x, y, z)`
(angle in degrees; the axis is normalised). -/
def rotAxisM (angleDeg ax ay az : ℝ) : Mat4 :=
  let a := qDegreesToRadians angleDeg
  let c := Real.cos a
  let s := Real.sin a
  let len := Real.sqrt (ax ^ 2 + ay ^ 2 + az ^ 2)
  let x := ax / len
  let y := ay / len
  let z := az / len
  let ic := 1 - c
  !![x * x * ic + c,     x * y * ic - z * s, x * z * ic + y * s, 0;
     y * x * ic + z * s, y * y * ic + c,     y * z * ic - x * s, 0;
     z * x * ic - y * s, z * y * ic + x * s, z * z * ic + c,     0;
     0,                  0,                  0,                  1]

/-- `QMatrix4x4::rotate` post-multiplies by the axis-angle rotation matrix. -/
def qtRotate (m : Mat4) (angleDeg ax ay az : ℝ) : Mat4 :=
  m * rotAxisM angleDeg ax ay az

/-- A 3-component vector (`QVector3D`). -/
structure Vec3 where
  x : ℝ
  y : ℝ
  z : ℝ

/-- `QVector3D::length` (Euclidean norm). -/
def Vec3.length (v : Vec3) : ℝ := Real.sqrt (v.x ^ 2 + v.y ^ 2 + v.z ^ 2)

/-- The part of the collaborator `Model` value object the viewport reads:
validity flag and axis-aligned bounding box. -/
structure Model where
  m_isValid : Bool
  m_AABBMin : Vec3
  m_AABBMax : Vec3

/-- The state of `ViewerGraphicsWindow` that the embedded operations touch:
transform state, input snapshot, viewport/sensitivity parameters, and the
shader-manager state (retained source paths, link flag, location table). -/
structure ViewerState where
  initialized : Bool
  m_currentModel : Model
  m_scaleMatrix : Mat4
  m_transMatrix : Mat4
  /-- yaw, degrees (unbounded) -/
  rotX : ℝ
  /-- pitch, degrees (clamped to [-90, 90]) -/
  rotY : ℝ
  lastX : ℤ
  lastY : ℤ
  m_leftMousePressed : Bool
  m_rightMousePressed : Bool
  m_pressedKeys : List ℤ
  panXSensitivity : ℝ
  panYSensitivity : ℝ
  xRotateSensitivity : ℝ
  yRotateSensitivity : ℝ
  movementSensitivity : ℝ
  zoomSensitivity : ℝ
  fieldOfView : ℝ
  widthPx : ℤ
  heightPx : ℤ
  currentVertFile : String
  currentFragFile : String
  /-- whether `m_program` is currently linked (`QOpenGLShaderProgram::isLinked`) -/
  linked : Bool
  /-- the attribute/uniform location table (`m_posAttr`, `m_matrixUniform`, ...) -/
  locations : String → ℤ

/-- `ViewerGraphicsWindow::resetView` (ViewerGraphicsWindow.cpp:674-697). -/
def resetView (st : ViewerState) : ViewerState :=
  -- Reset matrices to default values
  let st := { st with
    m_scaleMatrix := 1
    rotY := 30
    rotX := 0
    m_transMatrix := qtTranslate 1 0 0 (-4) }
  -- Scale the scene so the entire model can be viewed
  if st.m_currentModel.m_isValid then
    let effectiveFOV :=
      min st.fieldOfView (st.fieldOfView * (st.widthPx : ℝ) / (st.heightPx : ℝ))
    let modelSize :=
      max st.m_currentModel.m_AABBMax.length st.m_currentModel.m_AABBMin.length
    let optimalViewingDistance :=
      modelSize / Real.arctan (qDegreesToRadians effectiveFOV) * 1.6
    let scale := 4 / optimalViewingDistance
    { st with m_scaleMatrix := qtScale st.m_scaleMatrix scale }
  else
    st

/-- C2 helper: the auto-fit scale factor computed by `resetView` for a
valid model, exactly as the source computes it. -/
def autoFitScale (st : ViewerState) : ℝ :=
  4 / (max st.m_currentModel.m_AABBMax.length st.m_currentModel.m_AABBMin.length /
    Real.arctan (qDegreesToRadians
      (min st.fieldOfView (st.fieldOfView * (st.widthPx : ℝ) / (st.heightPx : ℝ)))) * 1.6)

/-- The logical-action → physical-key-code table resolved from the settings
source (`KeySequenceParse(settings->value(...)).get()`); key codes are Qt
key codes. -/
structure Bindings where
  increase_speed : ℤ
  decrease_speed : ℤ
  elevate_forwards : ℤ
  elevate_backwards : ℤ
  strafe_left : ℤ
  strafe_right : ℤ
  scale_up : ℤ
  scale_down : ℤ
  pitch_up : ℤ
  pitch_down : ℤ
  spin_right : ℤ
  spin_left : ℤ

/-- The default key bindings of `ViewerGraphicsWindow::Update`
(Shift, Ctrl, W, S, A, D, E, Q, Up, Down, Right, Left as Qt key codes). -/
def defaultBindings : Bindings where
  increase_speed := 16777248
  decrease_speed := 16777249
  elevate_forwards := 87
  elevate_backwards := 83
  strafe_left := 65
  strafe_right := 68
  scale_up := 69
  scale_down := 81
  pitch_up := 16777235
  pitch_down := 16777237
  spin_right := 16777236
  spin_left := 16777234

/-- `Update`, speed computation (ViewerGraphicsWindow.cpp:617-625):
shift and ctrl increase/decrease the speed `movementSensitivity * sec`. -/
def updateEffectiveSpeed (b : Bindings) (st : ViewerState) (sec : ℝ) : ℝ :=
  let effectiveSpeed := st.movementSensitivity * sec
  let effectiveSpeed :=
    if b.increase_speed ∈ st.m_pressedKeys then effectiveSpeed * 3 else effectiveSpeed
  if b.decrease_speed ∈ st.m_pressedKeys then effectiveSpeed / 3 else effectiveSpeed

/-- `Update`, W/S elevate and A/D strafe blocks (ViewerGraphicsWindow.cpp:627-641). -/
def updateTranslation (b : Bindings) (st : ViewerState) (effectiveSpeed : ℝ) : ViewerState :=
  let st := if b.elevate_forwards ∈ st.m_pressedKeys then
    { st with m_transMatrix := qtTranslate st.m_transMatrix 0 (-effectiveSpeed) 0 } else st
  let st := if b.elevate_backwards ∈ st.m_pressedKeys then
    { st with m_transMatrix := qtTranslate st.m_transMatrix 0 effectiveSpeed 0 } else st
  let st := if b.strafe_left ∈ st.m_pressedKeys then
    { st with m_transMatrix := qtTranslate st.m_transMatrix effectiveSpeed 0 0 } else st
  if b.strafe_right ∈ st.m_pressedKeys then
    { st with m_transMatrix := qtTranslate st.m_transMatrix (-effectiveSpeed) 0 0 } else st

/-- `Update`, E/Q scale block (ViewerGraphicsWindow.cpp:643-650): scale instead
of translating so the user cannot move behind the object. -/
def updateScaling (b : Bindings) (st : ViewerState) (effectiveSpeed : ℝ) : ViewerState :=
  let st := if b.scale_up ∈ st.m_pressedKeys then
    { st with m_scaleMatrix := qtScale st.m_scaleMatrix (1 + effectiveSpeed / 2) } else st
  if b.scale_down ∈ st.m_pressedKeys then
    { st with m_scaleMatrix := qtScale st.m_scaleMatrix (1 - effectiveSpeed / 2) } else st

/-- `Update`, pitch keys followed by the unconditional clamp
(ViewerGraphicsWindow.cpp:653-663). -/
def updatePitch (b : Bindings) (st : ViewerState) (rotSpeed : ℝ) : ViewerState :=
  let st := if b.pitch_up ∈ st.m_pressedKeys then
    { st with rotY := st.rotY + rotSpeed } else st
  let st := if b.pitch_down ∈ st.m_pressedKeys then
    { st with rotY := st.rotY + -rotSpeed } else st
  { st with rotY := max (-90) (min st.rotY 90) }

/-- `Update`, spin keys (ViewerGraphicsWindow.cpp:665-671). -/
def updateSpin (b : Bindings) (st : ViewerState) (rotSpeed : ℝ) : ViewerState :=
  let st := if b.spin_right ∈ st.m_pressedKeys then
    { st with rotX := st.rotX + -rotSpeed } else st
  if b.spin_left ∈ st.m_pressedKeys then
    { st with rotX := st.rotX + rotSpeed } else st

/-- `ViewerGraphicsWindow::Update` (ViewerGraphicsWindow.cpp:615-672):
per-frame integration of the pressed-key set over `sec` seconds, as the
composition of its four blocks in source order. -/
def Update (b : Bindings) (st : ViewerState) (sec : ℝ) : ViewerState :=
  let effectiveSpeed := updateEffectiveSpeed b st sec
  let rotSpeed := qRadiansToDegrees effectiveSpeed
  updateSpin b
    (updatePitch b
      (updateScaling b (updateTranslation b st effectiveSpeed) effectiveSpeed) rotSpeed)
    rotSpeed

/-- `ViewerGraphicsWindow::mouseMoveEvent` (ViewerGraphicsWindow.cpp:298-326).
`x`, `y` are the event position, `buttonsLeft`/`buttonsRight` the state of
`event->buttons()`. -/
def mouseMoveEvent (st : ViewerState) (x y : ℤ) (buttonsLeft buttonsRight : Bool) :
    ViewerState :=
  let deltaX : ℝ := ((st.lastX - x : ℤ) : ℝ)
  let deltaY : ℝ := ((st.lastY - y : ℤ) : ℝ)
  -- LMB: rotate off of x-y movement
  let st :=
    if buttonsLeft && st.m_leftMousePressed then
      let st := { st with
        rotX := st.rotX + -deltaX * st.xRotateSensitivity
        rotY := st.rotY + -deltaY * st.yRotateSensitivity }
      { st with rotY := max (-90) (min st.rotY 90) }
    else st
  -- RMB: pan off of x-y movement
  let st :=
    if buttonsRight && st.m_rightMousePressed then
      let panAdj := (480 / (st.heightPx : ℝ)) * (st.fieldOfView / 60)
      let st := { st with
        m_transMatrix := qtTranslate st.m_transMatrix (-deltaX * st.panXSensitivity * panAdj) 0 0 }
      { st with
        m_transMatrix := qtTranslate st.m_transMatrix 0 (deltaY * st.panYSensitivity * panAdj) 0 }
    else st
  { st with lastX := x, lastY := y }

/-- `ViewerGraphicsWindow::GetModelMatrix` (ViewerGraphicsWindow.cpp:847-857):
a pure function of the transform state, mutating nothing. -/
def GetModelMatrix (st : ViewerState) : Mat4 :=
  let rotMatrix : Mat4 := 1
  let rotMatrix := qtRotate rotMatrix st.rotY 1 0 0
  let rotMatrix := qtRotate rotMatrix st.rotX 0 1 0
  st.m_transMatrix * rotMatrix * st.m_scaleMatrix

/-- The textbook rotation matrix about the X axis by `deg` degrees
(the spec's "pitch about the local X axis"). -/
def rotXSpec (deg : ℝ) : Mat4 :=
  let a := qDegreesToRadians deg
  !![1, 0, 0, 0;
     0, Real.cos a, -Real.sin a, 0;
     0, Real.sin a, Real.cos a, 0;
     0, 0, 0, 1]

/-- The textbook rotation matrix about the Y axis by `deg` degrees
(the spec's "yaw about the local Y axis"). -/
def rotYSpec (deg : ℝ) : Mat4 :=
  let a := qDegreesToRadians deg
  !![Real.cos a, 0, Real.sin a, 0;
     0, 1, 0, 0;
     -Real.sin a, 0, Real.cos a, 0;
     0, 0, 0, 1]

/-- A camera-mutating input event: a per-frame `Update` tick (with its
delta time) or a `mouseMoveEvent` (position and `event->buttons()` state). -/
inductive CamEvent where
  | update (sec : ℝ)
  | mouseMove (x y : ℤ) (buttonsLeft buttonsRight : Bool)

/-- Apply one input event to the window state. -/
def applyEvent (b : Bindings) (st : ViewerState) : CamEvent → ViewerState
  | CamEvent.update sec => Update b st sec
  | CamEvent.mouseMove x y bl br => mouseMoveEvent st x y bl br

/-- A `ViewerGraphicsWindow` as it stands after startup with no model
loaded: settings defaults (ViewerGraphicsWindow.cpp:48-58), the 640×480
window from `ModelViewer.cpp`, a freshly linked default shader pair, and
the transform state produced by `resetView`. -/
def baseState : ViewerState where
  initialized := true
  m_currentModel := { m_isValid := false, m_AABBMin := ⟨0, 0, 0⟩, m_AABBMax := ⟨0, 0, 0⟩ }
  m_scaleMatrix := 1
  m_transMatrix := translationM 0 0 (-4)
  rotX := 0
  rotY := 30
  lastX := 0
  lastY := 0
  m_leftMousePressed := false
  m_rightMousePressed := false
  m_pressedKeys := []
  panXSensitivity := 1 / 100
  panYSensitivity := 1 / 100
  xRotateSensitivity := 3 / 5
  yRotateSensitivity := 3 / 5
  movementSensitivity := 4
  zoomSensitivity := 1 / 1000
  fieldOfView := 45
  widthPx := 640
  heightPx := 480
  currentVertFile := "../Data/Shaders/ads.vert"
  currentFragFile := "../Data/Shaders/ads.frag"
  linked := true
  locations := fun _ => 0

/-- The end-to-end auto-fit scenario: a valid model with
`AABBMin = (-1,-1,-1)`, `AABBMax = (1,1,1)`, FOV 45°, window 640×480. -/
def autoFitDemoState : ViewerState :=
  { baseState with
    m_currentModel := { m_isValid := true, m_AABBMin := ⟨-1, -1, -1⟩, m_AABBMax := ⟨1, 1, 1⟩ } }

/-- The degenerate-viewport scenario: a valid model, zero window height,
and a non-identity prior scale matrix. -/
def zeroHeightState : ViewerState :=
  { autoFitDemoState with heightPx := 0, m_scaleMatrix := scaleM 2 }

/-- The strafe scenario: only the "strafe right" key (default `D`) held,
`movementSensitivity = 4`. -/
def strafeState : ViewerState :=
  { baseState with m_pressedKeys := [defaultBindings.strafe_right] }

/-- Signals emitted by `ViewerGraphicsWindow` during load operations. -/
inductive Signal where
  | Error (msg : String)
  | ClearError
  | BeginModelLoading (path : String)
  | EndModelLoading (ok : Bool) (path : String)
  deriving DecidableEq

/-- The graphics-context environment for the shader manager: which source
files compile for each stage (`addShaderFromSourceFile` success) and which
attached stage combinations link (`link` success; `none` = nothing
attached for that stage after a failed fallback compile). -/
structure ShaderEnv where
  compilesVert : String → Bool
  compilesFrag : String → Bool
  links : Option String → Option String → Bool
  locs : Option String → Option String → (String → ℤ)

/-- The shader attached for the vertex stage when the retained
(last-known-good) vertex source is the one compiled. -/
def attachedVertexFallback (env : ShaderEnv) (st : ViewerState) : Option String :=
  if env.compilesVert st.currentVertFile then some st.currentVertFile else none

/-- The shader attached for the fragment stage when the retained
(last-known-good) fragment source is the one compiled. -/
def attachedFragmentFallback (env : ShaderEnv) (st : ViewerState) : Option String :=
  if env.compilesFrag st.currentFragFile then some st.currentFragFile else none

/-- `ViewerGraphicsWindow::loadVertexShader` (ViewerGraphicsWindow.cpp:97-149).
Returns the new state, the return value, and the emitted signals. -/
def loadVertexShader (env : ShaderEnv) (st : ViewerState) (path dialog : String) :
    ViewerState × Bool × List Signal :=
  if st.initialized then
    let vertfilepath := if path = "" then dialog else path
    if vertfilepath = "" then (st, false, [])
    else
      -- removeAllShaders; attach the new vertex source, falling back to the
      -- retained source when compilation fails; attach the retained fragment
      let attempt := env.compilesVert vertfilepath
      let vertfilepath := if attempt then vertfilepath else st.currentVertFile
      let attachedVert :=
        if attempt then some vertfilepath else attachedVertexFallback env st
      let attachedFrag := attachedFragmentFallback env st
      if env.links attachedVert attachedFrag then
        ({ st with
            currentVertFile := vertfilepath
            linked := true
            locations := env.locs attachedVert attachedFrag },
          true, [Signal.ClearError])
      else
        ({ st with currentVertFile := vertfilepath, linked := false },
          false, [Signal.Error "Failed to link shader program."])
  else (st, false, [])

/-- `ViewerGraphicsWindow::loadFragmentShader` (ViewerGraphicsWindow.cpp:151-208). -/
def loadFragmentShader (env : ShaderEnv) (st : ViewerState) (path dialog : String) :
    ViewerState × Bool × List Signal :=
  if st.initialized then
    let fragfilepath := if path = "" then dialog else path
    if fragfilepath = "" then (st, false, [])
    else
      -- removeAllShaders; attach the retained vertex source; attach the new
      -- fragment source, falling back to the retained source on failure
      let attachedVert := attachedVertexFallback env st
      let attempt := env.compilesFrag fragfilepath
      let fragfilepath := if attempt then fragfilepath else st.currentFragFile
      let attachedFrag :=
        if attempt then some fragfilepath else attachedFragmentFallback env st
      if env.links attachedVert attachedFrag then
        ({ st with
            currentFragFile := fragfilepath
            linked := true
            locations := env.locs attachedVert attachedFrag },
          true, [Signal.ClearError])
      else
        ({ st with currentFragFile := fragfilepath, linked := false },
          false, [Signal.Error "Failed to link shader program."])
  else (st, false, [])

/-- The model-loader environment: what `ModelLoader::LoadModel` returns
for each path. -/
structure ModelEnv where
  loadModelFile : String → Model

/-- `ViewerGraphicsWindow::loadModel` (ViewerGraphicsWindow.cpp:60-87). -/
def loadModel (env : ModelEnv) (st : ViewerState) (path dialog : String) :
    ViewerState × Bool × List Signal :=
  if st.initialized then
    let filepath := if path = "" then dialog else path
    if filepath = "" then (st, false, [])
    else
      let m := env.loadModelFile filepath
      let st1 := { st with m_currentModel := m }
      -- Reset the view to size properly for the new model
      let st2 := resetView st1
      (st2, m.m_isValid,
        [Signal.BeginModelLoading filepath, Signal.EndModelLoading m.m_isValid filepath])
  else (st, false, [])

/-- A shader environment in which exactly the default startup sources
compile and any attached pair with both stages present links. -/
def demoShaderEnv : ShaderEnv where
  compilesVert := fun p => p = "../Data/Shaders/ads.vert"
  compilesFrag := fun p => p = "../Data/Shaders/ads.frag"
  links := fun v f => v.isSome && f.isSome
  locs := fun _ _ _ => 0

/-- A model-loader environment in which every load attempt yields an
invalid model. -/
def failingModelEnv : ModelEnv where
  loadModelFile := fun _ => { m_isValid := false, m_AABBMin := ⟨0, 0, 0⟩, m_AABBMax := ⟨0, 0, 0⟩ }

/-- `RenderText` framerate computation (ViewerGraphicsWindow.cpp:573-578):
`fps = round(size / total)` over the whole current frame window, computed
before any eviction. -/
def renderTextFps (l : List ℚ) : ℤ := round ((l.length : ℚ) / l.sum)

/-- The eviction loop of `RenderText` (ViewerGraphicsWindow.cpp:580-592),
walking the window newest-to-oldest and keeping each entry while the
running total is still under 0.25 s. `rs` is the reversed window, `total`
the running sum, `acc` the kept entries (oldest first). -/
def pruneAux : List ℚ → ℚ → List ℚ → List ℚ
  | [], _, acc => acc
  | t :: rest, total, acc =>
    if total < 0.25 then pruneAux rest (total + t) (t :: acc) else acc

/-- The frame window retained by `RenderText` after eviction
(`m_frametimes = newFrametimes`). -/
def pruneFrametimes (l : List ℚ) : List ℚ := pruneAux l.reverse 0 []

/-- One `RenderText` call on frame window `l`: the displayed fps and the
retained window. -/
def renderTextStep (l : List ℚ) : ℤ × List ℚ := (renderTextFps l, pruneFrametimes l)

/-- Direct (non-accumulator) form of the eviction loop, on the
newest-first list. -/
def keepWhileUnder : List ℚ → ℚ → List ℚ
  | [], _ => []
  | t :: rest, total =>
    if total < 0.25 then t :: keepWhileUnder rest (total + t) else []

/-! ## Theorems -/

lemma rotAxisM_xAxis (deg : ℝ) : rotAxisM deg 1 0 0 = rotXSpec deg := by
  unfold rotAxisM rotXSpec
  ext i j
  fin_cases i <;> fin_cases j <;> (simp; try ring_nf)

lemma rotAxisM_yAxis (deg : ℝ) : rotAxisM deg 0 1 0 = rotYSpec deg := by
  unfold rotAxisM rotYSpec
  ext i j
  fin_cases i <;> fin_cases j <;> (simp; try ring_nf)

/-- C2: `resetView` sets pitch to 30°, yaw to 0, translation to `(0,0,-4)`,
and the scale matrix to the uniform auto-fit scale when a valid model is
loaded, to the identity otherwise. -/
theorem resetView_correct (st : ViewerState) :
    (resetView st).rotY = 30 ∧ (resetView st).rotX = 0 ∧
    (resetView st).m_transMatrix = translationM 0 0 (-4) ∧
    (resetView st).m_scaleMatrix =
      (if st.m_currentModel.m_isValid then scaleM (autoFitScale st) else 1) := by
  by_cases h : st.m_currentModel.m_isValid <;>
    simp [resetView, autoFitScale, qtTranslate, qtScale, h, one_mul]

/-- C5: `GetModelMatrix` returns exactly
`translation × (rotation about X by pitch, then about Y by yaw) × scale`;
being a plain function of the state, it mutates no state. -/
theorem getModelMatrix_composition (st : ViewerState) :
    GetModelMatrix st =
      st.m_transMatrix * (rotXSpec st.rotY * rotYSpec st.rotX) * st.m_scaleMatrix := by
  show st.m_transMatrix * ((1 : Mat4) * rotAxisM st.rotY 1 0 0 * rotAxisM st.rotX 0 1 0) *
      st.m_scaleMatrix = _
  rw [rotAxisM_xAxis, rotAxisM_yAxis, one_mul]

lemma clamp_pitch_mem (r : ℝ) :
    -90 ≤ max (-90 : ℝ) (min r 90) ∧ max (-90 : ℝ) (min r 90) ≤ 90 :=
  ⟨le_max_left _ _, max_le (by norm_num) (min_le_right _ _)⟩

lemma updatePitch_rotY_mem (b : Bindings) (st : ViewerState) (r : ℝ) :
    -90 ≤ (updatePitch b st r).rotY ∧ (updatePitch b st r).rotY ≤ 90 :=
  clamp_pitch_mem _

lemma updateSpin_rotY (b : Bindings) (st : ViewerState) (r : ℝ) :
    (updateSpin b st r).rotY = st.rotY := by
  unfold updateSpin
  dsimp only
  split_ifs <;> rfl

lemma Update_rotY_mem (b : Bindings) (st : ViewerState) (sec : ℝ) :
    -90 ≤ (Update b st sec).rotY ∧ (Update b st sec).rotY ≤ 90 := by
  unfold Update
  dsimp only
  rw [updateSpin_rotY]
  exact updatePitch_rotY_mem _ _ _

lemma mouseMoveEvent_rotY_mem (st : ViewerState) (x y : ℤ) (bl br : Bool)
    (h1 : -90 ≤ st.rotY) (h2 : st.rotY ≤ 90) :
    -90 ≤ (mouseMoveEvent st x y bl br).rotY ∧ (mouseMoveEvent st x y bl br).rotY ≤ 90 := by
  unfold mouseMoveEvent
  dsimp only
  split_ifs <;>
    first
      | exact ⟨h1, h2⟩
      | exact clamp_pitch_mem _

/-- C4: starting from any state whose pitch is within `[-90°, 90°]`, the
pitch (`rotY`) remains in `[-90°, 90°]` after any sequence of per-frame
`Update` calls and mouse-move events, in any order: every pitch-modifying
operation clamps it before returning. -/
theorem pitch_always_in_range (b : Bindings) (st : ViewerState) (evs : List CamEvent)
    (h1 : -90 ≤ st.rotY) (h2 : st.rotY ≤ 90) :
    -90 ≤ (evs.foldl (applyEvent b) st).rotY ∧ (evs.foldl (applyEvent b) st).rotY ≤ 90 := by
  induction evs generalizing st with
  | nil => exact ⟨h1, h2⟩
  | cons e rest ih =>
    rw [List.foldl_cons]
    cases e with
    | update sec =>
      exact ih _ (Update_rotY_mem b st sec).1 (Update_rotY_mem b st sec).2
    | mouseMove x y bl br =>
      exact ih _ (mouseMoveEvent_rotY_mem st x y bl br h1 h2).1
        (mouseMoveEvent_rotY_mem st x y bl br h1 h2).2

/-- C4 witness: the invariant instantiated at the startup state and a
concrete event sequence (a 1-second tick followed by a left-button drag). -/
theorem pitch_always_in_range_witness :
    -90 ≤ (([CamEvent.update 1, CamEvent.mouseMove 10 500 true false].foldl
        (applyEvent defaultBindings) baseState)).rotY ∧
      (([CamEvent.update 1, CamEvent.mouseMove 10 500 true false].foldl
        (applyEvent defaultBindings) baseState)).rotY ≤ 90 :=
  pitch_always_in_range defaultBindings baseState
    [CamEvent.update 1, CamEvent.mouseMove 10 500 true false]
    (by norm_num [baseState]) (by norm_num [baseState])

lemma scaleM_apply_00 (f : ℝ) : scaleM f 0 0 = f := by simp [scaleM]

lemma scaleM_injective {a b : ℝ} (h : scaleM a = scaleM b) : a = b := by
  have h00 := congrArg (fun M : Mat4 => M 0 0) h
  simpa [scaleM_apply_00] using h00

lemma resetView_scaleMatrix (st : ViewerState) :
    (resetView st).m_scaleMatrix =
      (if st.m_currentModel.m_isValid then scaleM (autoFitScale st) else 1) := by
  by_cases h : st.m_currentModel.m_isValid <;>
    simp [resetView, autoFitScale, qtScale, h, one_mul]

lemma autoFitDemoState_valid : autoFitDemoState.m_currentModel.m_isValid = true := rfl

lemma zeroHeightState_valid : zeroHeightState.m_currentModel.m_isValid = true := rfl

lemma autoFitScale_demo :
    autoFitScale autoFitDemoState = 4 / (Real.sqrt 3 / Real.arctan (Real.pi / 4) * 1.6) := by
  have h45 : (45 : ℝ) * (Real.pi / 180) = Real.pi / 4 := by ring
  have hmin : min (45 : ℝ) (45 * 640 / 480) = 45 := by norm_num [min_def]
  simp only [autoFitScale, autoFitDemoState, baseState, Vec3.length, qDegreesToRadians]
  norm_num [hmin, h45]

/-- C3 amended: in the auto-fit scenario (`AABBMin = (-1,-1,-1)`,
`AABBMax = (1,1,1)`, FOV 45°, window 640×480), `resetView` computes
`modelSize = √3`, `optimalDistance = √3 / atan(radians 45°) × 1.6`
(`atan`, not `tan`, per the source), and `scale = 4 / optimalDistance`. -/
theorem autoFit_demo_scale :
    (resetView autoFitDemoState).m_scaleMatrix =
      scaleM (4 / (Real.sqrt 3 / Real.arctan (Real.pi / 4) * 1.6)) := by
  rw [resetView_scaleMatrix,
    if_pos autoFitDemoState_valid, autoFitScale_demo]

/-- C3 counterexample: in the same scenario the claimed value
`scale = 4 / (√3 / tan(45°) × 1.6)` is not what `resetView` produces,
because the source divides by `atan(radians 45°) ≈ 0.666`, not
`tan(45°) = 1`. -/
theorem autoFit_demo_tan_counterexample :
    ¬ ((resetView autoFitDemoState).m_scaleMatrix =
        scaleM (4 / (Real.sqrt 3 / Real.tan (qDegreesToRadians 45) * 1.6))) := by
  have hdeg : qDegreesToRadians 45 = Real.pi / 4 := by unfold qDegreesToRadians; ring
  rw [hdeg, Real.tan_pi_div_four, resetView_scaleMatrix,
    if_pos autoFitDemoState_valid, autoFitScale_demo]
  intro h
  have heq :
      4 / (Real.sqrt 3 / Real.arctan (Real.pi / 4) * 1.6) =
        4 / (Real.sqrt 3 / 1 * 1.6) := scaleM_injective h
  have h3 : (0 : ℝ) < Real.sqrt 3 := Real.sqrt_pos.mpr (by norm_num)
  have ht0 : 0 < Real.arctan (Real.pi / 4) := by
    have h0 := Real.arctan_strictMono (show (0 : ℝ) < Real.pi / 4 by positivity)
    rwa [Real.arctan_zero] at h0
  have ht1 : Real.arctan (Real.pi / 4) < 1 := by
    have hlt : Real.arctan (Real.pi / 4) < Real.arctan 1 :=
      Real.arctan_strictMono (by nlinarith [Real.pi_lt_d2])
    rw [Real.arctan_one] at hlt
    nlinarith [Real.pi_lt_d2]
  have hgt : Real.sqrt 3 < Real.sqrt 3 / Real.arctan (Real.pi / 4) := by
    rw [lt_div_iff₀ ht0]
    nlinarith
  have hd : (0 : ℝ) < Real.sqrt 3 / Real.arctan (Real.pi / 4) * 1.6 := by positivity
  have hd2 : (0 : ℝ) < Real.sqrt 3 / 1 * 1.6 := by positivity
  have hlt2 :
      4 / (Real.sqrt 3 / Real.arctan (Real.pi / 4) * 1.6) < 4 / (Real.sqrt 3 / 1 * 1.6) := by
    apply div_lt_div_of_pos_left (by norm_num) hd2
    rw [div_one]
    nlinarith
  linarith [heq.le, hlt2]

/-- C8 amended: `resetView` contains no zero-height guard and never keeps
the prior scale: its result does not depend on the prior scale matrix at
all (the scale is reset to identity and, with a valid model, rescaled
unconditionally, including at zero viewport height). -/
theorem resetView_discards_prior_scale (st : ViewerState) (m : Mat4) :
    resetView { st with m_scaleMatrix := m } = resetView st := rfl

lemma autoFitScale_zeroHeight : autoFitScale zeroHeightState = 0 := by
  have hmin : min (45 : ℝ) 0 = 0 := by norm_num [min_def]
  simp only [autoFitScale, zeroHeightState, autoFitDemoState, baseState]
  norm_num [hmin, qDegreesToRadians, Real.arctan_zero]

/-- C8 counterexample: with a valid model, zero viewport height and a
prior scale of 2, `resetView` does not keep the prior scale matrix. -/
theorem zeroHeight_scale_not_kept :
    ¬ ((resetView zeroHeightState).m_scaleMatrix = zeroHeightState.m_scaleMatrix) := by
  rw [resetView_scaleMatrix,
    if_pos zeroHeightState_valid, autoFitScale_zeroHeight]
  intro h
  have : (0 : ℝ) = 2 := scaleM_injective h
  norm_num at this

lemma translationM_zero : translationM 0 0 0 = 1 := by
  ext i j
  fin_cases i <;> fin_cases j <;>
    simp [translationM, Matrix.one_apply, Matrix.vecHead, Matrix.vecTail]

lemma translationM_add_x (a c : ℝ) :
    translationM a 0 0 * translationM c 0 0 = translationM (a + c) 0 0 := by
  ext i j
  fin_cases i <;> fin_cases j <;>
    (simp [translationM, Matrix.mul_apply, Fin.sum_univ_four, Matrix.vecHead, Matrix.vecTail];
      try ring)

lemma updateTranslation_keys (b : Bindings) (st : ViewerState) (es : ℝ) :
    (updateTranslation b st es).m_pressedKeys = st.m_pressedKeys := by
  unfold updateTranslation; dsimp only; split_ifs <;> rfl

lemma updateScaling_keys (b : Bindings) (st : ViewerState) (es : ℝ) :
    (updateScaling b st es).m_pressedKeys = st.m_pressedKeys := by
  unfold updateScaling; dsimp only; split_ifs <;> rfl

lemma updatePitch_keys (b : Bindings) (st : ViewerState) (r : ℝ) :
    (updatePitch b st r).m_pressedKeys = st.m_pressedKeys := by
  unfold updatePitch; dsimp only; split_ifs <;> rfl

lemma updateSpin_keys (b : Bindings) (st : ViewerState) (r : ℝ) :
    (updateSpin b st r).m_pressedKeys = st.m_pressedKeys := by
  unfold updateSpin; dsimp only; split_ifs <;> rfl

lemma Update_keys (b : Bindings) (st : ViewerState) (sec : ℝ) :
    (Update b st sec).m_pressedKeys = st.m_pressedKeys := by
  unfold Update; dsimp only
  rw [updateSpin_keys, updatePitch_keys, updateScaling_keys, updateTranslation_keys]

lemma updateTranslation_sens (b : Bindings) (st : ViewerState) (es : ℝ) :
    (updateTranslation b st es).movementSensitivity = st.movementSensitivity := by
  unfold updateTranslation; dsimp only; split_ifs <;> rfl

lemma updateScaling_sens (b : Bindings) (st : ViewerState) (es : ℝ) :
    (updateScaling b st es).movementSensitivity = st.movementSensitivity := by
  unfold updateScaling; dsimp only; split_ifs <;> rfl

lemma updatePitch_sens (b : Bindings) (st : ViewerState) (r : ℝ) :
    (updatePitch b st r).movementSensitivity = st.movementSensitivity := by
  unfold updatePitch; dsimp only; split_ifs <;> rfl

lemma updateSpin_sens (b : Bindings) (st : ViewerState) (r : ℝ) :
    (updateSpin b st r).movementSensitivity = st.movementSensitivity := by
  unfold updateSpin; dsimp only; split_ifs <;> rfl

lemma Update_sens (b : Bindings) (st : ViewerState) (sec : ℝ) :
    (Update b st sec).movementSensitivity = st.movementSensitivity := by
  unfold Update; dsimp only
  rw [updateSpin_sens, updatePitch_sens, updateScaling_sens, updateTranslation_sens]

lemma Update_strafeRight_trans (st : ViewerState) (sec : ℝ)
    (hkeys : st.m_pressedKeys = [defaultBindings.strafe_right]) :
    (Update defaultBindings st sec).m_transMatrix =
      st.m_transMatrix * translationM (-(st.movementSensitivity * sec)) 0 0 := by
  unfold Update updateEffectiveSpeed updateTranslation updateScaling updatePitch updateSpin
  simp [hkeys, defaultBindings, qtTranslate]

lemma foldl_strafeRight_trans (ds : List ℝ) : ∀ st : ViewerState,
    st.m_pressedKeys = [defaultBindings.strafe_right] → st.movementSensitivity = 4 →
    (ds.foldl (Update defaultBindings) st).m_transMatrix =
      st.m_transMatrix * translationM (-(4 * ds.sum)) 0 0 := by
  induction ds with
  | nil =>
    intro st _ _
    simp [translationM_zero]
  | cons d ds ih =>
    intro st hk hs
    rw [List.foldl_cons,
      ih _ (by rw [Update_keys]; exact hk) (by rw [Update_sens]; exact hs),
      Update_strafeRight_trans st d hk, hs, mul_assoc, translationM_add_x, List.sum_cons]
    have harg : -(4 * d) + -(4 * ds.sum) = -(4 * (d + ds.sum)) := by ring
    rw [harg]

/-- C6 amended: holding only the "strafe right" key for Update calls
totalling exactly 1 simulated second with `movementSensitivity = 4` and no
modifier keys changes the translation matrix's X translation component by
exactly `-4.0` (the source translates by `-effectiveSpeed` for strafe
right), not `+4.0`; stated for any prior translation matrix whose `(0,0)`
entry is 1 (as after `resetView`). -/
theorem strafeRight_one_second (st : ViewerState) (ds : List ℝ)
    (hkeys : st.m_pressedKeys = [defaultBindings.strafe_right])
    (hsens : st.movementSensitivity = 4)
    (hsum : ds.sum = 1)
    (h00 : st.m_transMatrix 0 0 = 1) :
    (ds.foldl (Update defaultBindings) st).m_transMatrix 0 3 =
      st.m_transMatrix 0 3 + -4 := by
  rw [foldl_strafeRight_trans ds st hkeys hsens, hsum]
  simp [translationM, Matrix.mul_apply, Fin.sum_univ_four, h00]
  ring

/-- C6 witness: the amended statement at the concrete strafe scenario,
with a single 1-second tick. -/
theorem strafeRight_one_second_witness :
    ([(1 : ℝ)].foldl (Update defaultBindings) strafeState).m_transMatrix 0 3 =
      strafeState.m_transMatrix 0 3 + -4 :=
  strafeRight_one_second strafeState [1] rfl rfl (by norm_num)
    (by norm_num [strafeState, baseState, translationM])

/-- C6 counterexample: in the strafe scenario (only "strafe right" held,
`movementSensitivity = 4`, one 1-second tick from the post-`resetView`
translation), the X translation component does not change by `+4.0`
(it changes by `-4.0`). -/
theorem strafeRight_claim_counterexample :
    ¬(([(1 : ℝ)].foldl (Update defaultBindings) strafeState).m_transMatrix 0 3 -
        strafeState.m_transMatrix 0 3 = 4) := by
  rw [foldl_strafeRight_trans [1] strafeState rfl rfl]
  simp [translationM, Matrix.mul_apply, Fin.sum_univ_four, strafeState, baseState]
  norm_num

lemma pruneAux_eq (rs : List ℚ) : ∀ (total : ℚ) (acc : List ℚ),
    pruneAux rs total acc = (keepWhileUnder rs total).reverse ++ acc := by
  induction rs with
  | nil => intro total acc; simp [pruneAux, keepWhileUnder]
  | cons t rest ih =>
    intro total acc
    by_cases h : total < 0.25
    · simp [pruneAux, keepWhileUnder, h, ih]
    · simp [pruneAux, keepWhileUnder, h]

lemma keepWhileUnder_ne_nil {rs : List ℚ} {total : ℚ}
    (h : keepWhileUnder rs total ≠ []) : total < 0.25 := by
  cases rs with
  | nil => simp [keepWhileUnder] at h
  | cons t rest =>
    by_contra hc
    simp [keepWhileUnder, hc] at h

lemma keepWhileUnder_dropLast_sum (rs : List ℚ) :
    ∀ total : ℚ, total < 0.25 → total + (keepWhileUnder rs total).dropLast.sum < 0.25 := by
  induction rs with
  | nil => intro total h; simpa [keepWhileUnder]
  | cons t rest ih =>
    intro total h
    rw [keepWhileUnder, if_pos h]
    cases hK : keepWhileUnder rest (total + t) with
    | nil => simpa [hK]
    | cons a K =>
      have hlt : total + t < 0.25 := keepWhileUnder_ne_nil (by rw [hK]; simp)
      have hrec := ih (total + t) hlt
      rw [hK] at hrec
      rw [List.dropLast_cons₂, List.sum_cons]
      linarith

lemma keepWhileUnder_append (rs : List ℚ) :
    ∀ total, ∃ t, keepWhileUnder rs total ++ t = rs := by
  induction rs with
  | nil => intro total; exact ⟨[], rfl⟩
  | cons x rest ih =>
    intro total
    by_cases h : total < 0.25
    · obtain ⟨t, ht⟩ := ih (total + x)
      exact ⟨t, by simp [keepWhileUnder, h, ht]⟩
    · exact ⟨x :: rest, by simp [keepWhileUnder, h]⟩

lemma keepWhileUnder_total (rs : List ℚ) : ∀ total : ℚ,
    keepWhileUnder rs total = rs ∨ 0.25 ≤ total + (keepWhileUnder rs total).sum := by
  induction rs with
  | nil => intro total; exact Or.inl rfl
  | cons x rest ih =>
    intro total
    by_cases h : total < 0.25
    · rcases ih (total + x) with h1 | h2
      · exact Or.inl (by simp [keepWhileUnder, h, h1])
      · refine Or.inr ?_
        rw [keepWhileUnder, if_pos h, List.sum_cons]
        linarith
    · refine Or.inr ?_
      rw [keepWhileUnder, if_neg h]
      simp
      linarith

lemma pruneFrametimes_eq (l : List ℚ) :
    pruneFrametimes l = (keepWhileUnder l.reverse 0).reverse := by
  unfold pruneFrametimes
  rw [pruneAux_eq, List.append_nil]

/-- C7 amended: after each `RenderText` call on window `l`, the retained
window is a suffix of `l`; its entries other than the oldest retained one
sum to under 0.25 s (the full retained window may exceed 0.25 s by its
oldest entry); either nothing was evicted or the retained window still
sums to at least 0.25 s; and the displayed fps is `round(count/sum)` over
the pre-eviction window `l`, not over the bounded window. -/
theorem renderText_window_characterization (l : List ℚ) :
    (∃ t, t ++ (renderTextStep l).2 = l) ∧
    ((renderTextStep l).2).tail.sum < 0.25 ∧
    ((renderTextStep l).2 = l ∨ 0.25 ≤ ((renderTextStep l).2).sum) ∧
    (renderTextStep l).1 = round ((l.length : ℚ) / l.sum) := by
  refine ⟨?_, ?_, ?_, rfl⟩
  · obtain ⟨t, ht⟩ := keepWhileUnder_append l.reverse 0
    refine ⟨t.reverse, ?_⟩
    show t.reverse ++ pruneFrametimes l = l
    rw [pruneFrametimes_eq, ← List.reverse_append, ht, List.reverse_reverse]
  · show (pruneFrametimes l).tail.sum < 0.25
    rw [pruneFrametimes_eq, List.tail_reverse, List.sum_reverse]
    have := keepWhileUnder_dropLast_sum l.reverse 0 (by norm_num)
    simpa using this
  · show pruneFrametimes l = l ∨ 0.25 ≤ (pruneFrametimes l).sum
    rcases keepWhileUnder_total l.reverse 0 with h1 | h2
    · exact Or.inl (by rw [pruneFrametimes_eq, h1, List.reverse_reverse])
    · refine Or.inr ?_
      rw [pruneFrametimes_eq, List.sum_reverse]
      linarith

/-- C7 counterexample: after `RenderText` on the window
`[0.1, 0.1, 0.1]` the retained entries sum to 0.3 > 0.25 s, and on the
window `[1, 0.25, 0.1]` the displayed fps (`round(3/1.35) = 2`) differs
from `round(count/sum)` over the bounded window (`round(2/0.35) = 6`). -/
theorem frameWindow_claim_counterexample :
    ¬((pruneFrametimes [0.1, 0.1, 0.1]).sum ≤ 0.25) ∧
      renderTextFps [1, 0.25, 0.1] ≠
        round (((pruneFrametimes [1, 0.25, 0.1]).length : ℚ) /
          (pruneFrametimes [1, 0.25, 0.1]).sum) := by
  constructor
  · norm_num [pruneFrametimes, pruneAux]
  · norm_num [pruneFrametimes, pruneAux, renderTextFps, round_eq]

/-- C9: a load operation called with an empty path whose file dialog the
user then cancels (dialog also returns an empty path) returns failure,
emits no signals, and leaves the entire prior state untouched, for all
three load operations. -/
theorem cancelled_load_is_noop (envM : ModelEnv) (envS : ShaderEnv) (st : ViewerState) :
    loadModel envM st "" "" = (st, false, []) ∧
    loadVertexShader envS st "" "" = (st, false, []) ∧
    loadFragmentShader envS st "" "" = (st, false, []) := by
  by_cases h : st.initialized <;>
    simp [loadModel, loadVertexShader, loadFragmentShader, h]

lemma resetView_rotY (st : ViewerState) : (resetView st).rotY = 30 := by
  by_cases h : st.m_currentModel.m_isValid <;> simp [resetView, h]

lemma resetView_rotX (st : ViewerState) : (resetView st).rotX = 0 := by
  by_cases h : st.m_currentModel.m_isValid <;> simp [resetView, h]

lemma resetView_transMatrix (st : ViewerState) :
    (resetView st).m_transMatrix = translationM 0 0 (-4) := by
  by_cases h : st.m_currentModel.m_isValid <;> simp [resetView, qtTranslate, h, one_mul]

/-- C10: a `loadModel` call with a non-empty path that loads an invalid
model still invokes `resetView` after the load attempt: it returns false,
yet pitch, yaw, translation and scale are reset to their defaults (scale
stays the identity because the new model is invalid) instead of the prior
view state being preserved. -/
theorem loadModel_resets_view_on_invalid (env : ModelEnv) (st : ViewerState)
    (path dialog : String) (hinit : st.initialized = true) (hpath : path ≠ "")
    (hbad : (env.loadModelFile path).m_isValid = false) :
    (loadModel env st path dialog).2.1 = false ∧
    (loadModel env st path dialog).1.rotY = 30 ∧
    (loadModel env st path dialog).1.rotX = 0 ∧
    (loadModel env st path dialog).1.m_transMatrix = translationM 0 0 (-4) ∧
    (loadModel env st path dialog).1.m_scaleMatrix = 1 := by
  refine ⟨?_, ?_, ?_, ?_, ?_⟩ <;>
    simp [loadModel, hinit, hpath, hbad, resetView_rotY, resetView_rotX,
      resetView_transMatrix, resetView_scaleMatrix]

/-- C10 witness: loading a missing model file from the startup state. -/
theorem loadModel_resets_view_on_invalid_witness :
    (loadModel failingModelEnv baseState "missing.obj" "").2.1 = false ∧
    (loadModel failingModelEnv baseState "missing.obj" "").1.rotY = 30 ∧
    (loadModel failingModelEnv baseState "missing.obj" "").1.rotX = 0 ∧
    (loadModel failingModelEnv baseState "missing.obj" "").1.m_transMatrix =
      translationM 0 0 (-4) ∧
    (loadModel failingModelEnv baseState "missing.obj" "").1.m_scaleMatrix = 1 :=
  loadModel_resets_view_on_invalid failingModelEnv baseState "missing.obj" ""
    rfl (by decide) rfl

/-- C1 amended: behaviour of a failed `loadVertexShader`/`loadFragmentShader`
call. If the new source fails to compile, the last-known-good source is
re-attached and the retained paths stay unchanged; if the subsequent link
succeeds, the program ends linked but the call returns success and emits a
ClearError (not an Error) signal; if the link fails, the call returns
failure with exactly one Error signal and an unchanged location table, but
the program ends unlinked. If the new source compiles and the link then
fails, the call returns failure with one Error signal, but the attempted
path replaces the retained last-known-good path and the program ends
unlinked. -/
theorem shader_load_failure_behavior (env : ShaderEnv) (st : ViewerState)
    (path dialog : String) (hinit : st.initialized = true) (hpath : path ≠ "") :
    (env.compilesFrag path = false →
      env.links (attachedVertexFallback env st) (attachedFragmentFallback env st) = true →
      loadFragmentShader env st path dialog =
        ({ st with
            linked := true
            locations := env.locs (attachedVertexFallback env st)
              (attachedFragmentFallback env st) },
          true, [Signal.ClearError])) ∧
    (env.compilesFrag path = false →
      env.links (attachedVertexFallback env st) (attachedFragmentFallback env st) = false →
      loadFragmentShader env st path dialog =
        ({ st with linked := false }, false,
          [Signal.Error "Failed to link shader program."])) ∧
    (env.compilesFrag path = true →
      env.links (attachedVertexFallback env st) (some path) = false →
      loadFragmentShader env st path dialog =
        ({ st with currentFragFile := path, linked := false }, false,
          [Signal.Error "Failed to link shader program."])) ∧
    (env.compilesVert path = false →
      env.links (attachedVertexFallback env st) (attachedFragmentFallback env st) = true →
      loadVertexShader env st path dialog =
        ({ st with
            linked := true
            locations := env.locs (attachedVertexFallback env st)
              (attachedFragmentFallback env st) },
          true, [Signal.ClearError])) ∧
    (env.compilesVert path = false →
      env.links (attachedVertexFallback env st) (attachedFragmentFallback env st) = false →
      loadVertexShader env st path dialog =
        ({ st with linked := false }, false,
          [Signal.Error "Failed to link shader program."])) ∧
    (env.compilesVert path = true →
      env.links (some path) (attachedFragmentFallback env st) = false →
      loadVertexShader env st path dialog =
        ({ st with currentVertFile := path, linked := false }, false,
          [Signal.Error "Failed to link shader program."])) := by
  refine ⟨?_, ?_, ?_, ?_, ?_, ?_⟩ <;> intro hc hl <;>
    simp [loadFragmentShader, loadVertexShader, hinit, hpath, hc, hl]

/-- C1 witness: from the startup state, attempting to load a fragment
source that fails to compile rolls back, relinks successfully, returns
success and emits ClearError. -/
theorem shader_load_failure_behavior_witness :
    loadFragmentShader demoShaderEnv baseState "bad.frag" "" =
      ({ baseState with
          linked := true
          locations := demoShaderEnv.locs (attachedVertexFallback demoShaderEnv baseState)
            (attachedFragmentFallback demoShaderEnv baseState) },
        true, [Signal.ClearError]) :=
  (shader_load_failure_behavior demoShaderEnv baseState "bad.frag" "" rfl
    (by decide)).1 (by decide) (by decide)

/-- C1 counterexample: from the startup state, a `loadFragmentShader` call
with a source that fails to compile does not return failure with a single
Error signal — it returns success and emits ClearError. -/
theorem shader_load_claim_counterexample :
    ¬((loadFragmentShader demoShaderEnv baseState "bad.frag" "").2.1 = false ∧
      (loadFragmentShader demoShaderEnv baseState "bad.frag" "").2.2 =
        [Signal.Error "Failed to link shader program."]) := by
  intro h
  have h1 := h.1
  simp [loadFragmentShader, demoShaderEnv, baseState, attachedVertexFallback,
    attachedFragmentFallback] at h1

end

end ModelViewer
